import Mathlib

/-!
Shallow embedding of the huetils repository's core logic.

Instants are rationals (seconds since an epoch, UTC); a Python
`timedelta` is the rational difference of two instants, and
`total_seconds()` is the identity under this encoding.  Python's
`int()` on a nonnegative float is the floor (truncation toward zero),
embedded as `pyInt`.

Embedded source:
- `src/huetils/utils.py`: `illumination`, `interpolate`;
- `src/huetils/room_control.py`: `sensor_pressed_not_long_ago`,
  `poweroff_lights`, `poweron_lights`, `set_lights_brightness`,
  `redshift`, the cloud-cover adjustment inside `main`;
- `src/huetils/thermometer.py`: `between`, `degree_c_to_hue_color`;
- `src/hue.py`: `get_transition_progress`.
-/

namespace Huetils

/-- The four solar events of a day, `sun["dawn"]` … `sun["dusk"]`,
as instants (rational seconds). -/
structure SolarEvents where
  dawn : ℚ
  sunrise : ℚ
  sunset : ℚ
  dusk : ℚ
deriving DecidableEq, Repr

/-- `huetils/utils.py`, `illumination(now, sun)`. -/
def illumination (now : ℚ) (sun : SolarEvents) : ℚ :=
  if now < sun.dawn ∨ now > sun.dusk then 0
  else if now < sun.sunrise then
    (now - sun.dawn) / (sun.sunrise - sun.dawn)
  else if now > sun.sunset then
    1 - (now - sun.sunset) / (sun.dusk - sun.sunset)
  else 1

/-- `illumination` with every division made explicit: `none` marks a
branch where Python would raise `ZeroDivisionError` (denominator 0). -/
def illuminationChecked (now : ℚ) (sun : SolarEvents) : Option ℚ :=
  if now < sun.dawn ∨ now > sun.dusk then some 0
  else if now < sun.sunrise then
    if sun.sunrise - sun.dawn = 0 then none
    else some ((now - sun.dawn) / (sun.sunrise - sun.dawn))
  else if now > sun.sunset then
    if sun.dusk - sun.sunset = 0 then none
    else some (1 - (now - sun.sunset) / (sun.dusk - sun.sunset))
  else some 1

/-- `huetils/utils.py`, `interpolate(alpha, min_temp, max_temp)`. -/
def interpolate (alpha min_temp max_temp : ℚ) : ℚ :=
  (1 - alpha) * min_temp + alpha * max_temp

/-- Python's `int()` on a rational: truncation toward zero. -/
def pyInt (q : ℚ) : ℤ :=
  if q < 0 then ⌈q⌉ else ⌊q⌋

/-- Modelled from the spec: the `round` the spec's power-on clause
refers to, i.e. Python's built-in `round` (half to even).  Only used
to compare the spec's wording against the code's `int()` truncation. -/
def specRound (q : ℚ) : ℤ :=
  if q - ⌊q⌋ < 1 / 2 then ⌊q⌋
  else if 1 / 2 < q - ⌊q⌋ then ⌊q⌋ + 1
  else if 2 ∣ ⌊q⌋ then ⌊q⌋ else ⌊q⌋ + 1

/-- `now.hour` of a UTC instant encoded as nonnegative rational seconds. -/
def hourOfTime (now : ℚ) : ℤ :=
  ⌊now / 3600⌋ % 24

/-- One light's state: `light.on` (here `isOn`, since `on` is reserved
in Lean) and `light.brightness` / the commanded brightness target. -/
structure LightState where
  isOn : Bool
  bri : ℤ
deriving DecidableEq, Repr

/-- Per-light effect of `room_control.poweroff_lights`: already-off
lights are skipped; lights at brightness ≤ 1 are powered off; brighter
lights get a dim-to-zero command and stay powered. -/
def poweroff_light (s : LightState) : LightState :=
  if s.isOn = false then s
  else if s.bri ≤ 1 then { s with isOn := false }
  else { s with bri := 0 }

/-- `room_control.poweroff_lights(bridge, lights)`. -/
def poweroff_lights (lights : List LightState) : List LightState :=
  lights.map poweroff_light

/-- Per-light effect of `room_control.poweron_lights`: off lights are
switched on, and every light is commanded to
`int(interpolate(illum, 255, 0))`. -/
def poweron_light (illum : ℚ) (_s : LightState) : LightState :=
  { isOn := true, bri := pyInt (interpolate illum 255 0) }

/-- `room_control.poweron_lights(bridge, lights, illum)`. -/
def poweron_lights (lights : List LightState) (illum : ℚ) : List LightState :=
  lights.map (poweron_light illum)

/-- The branch `room_control.set_lights_brightness` selects. -/
inductive LightsAction where
  | powerOff : LightsAction
  | nothing : LightsAction
  | powerOn : ℚ → LightsAction
deriving DecidableEq, Repr

/-- Branch selection of `room_control.set_lights_brightness`:
full day ⇒ power off; else curfew hour (0 < hour < 7) ⇒ power off;
else `only_switchoff` ⇒ no action; else power on at `illum`. -/
def set_lights_brightness_action (now : ℚ) (sun : SolarEvents)
    (only_switchoff : Bool) : LightsAction :=
  if illumination now sun = 1 then .powerOff
  else if 0 < hourOfTime now ∧ hourOfTime now < 7 then .powerOff
  else if only_switchoff then .nothing
  else .powerOn (illumination now sun)

/-- `room_control.set_lights_brightness(bridge, now, lights, sun,
only_switchoff)`, as the per-light state after the selected branch. -/
def set_lights_brightness (now : ℚ) (lights : List LightState)
    (sun : SolarEvents) (only_switchoff : Bool) : List LightState :=
  match set_lights_brightness_action now sun only_switchoff with
  | .powerOff => poweroff_lights lights
  | .nothing => lights
  | .powerOn illum => poweron_lights lights illum

/-- One sensor snapshot: `sensor.name` and the instant of
`sensor.state["lastupdated"]`. -/
structure SensorReading where
  name : String
  lastupdated : ℚ
deriving DecidableEq, Repr

/-- `room_control.sensor_pressed_not_long_ago(bridge, sensors_to_watch)`:
true iff some watched sensor was pressed less than 60 minutes ago. -/
def sensor_pressed_not_long_ago (now : ℚ) (sensors : List SensorReading)
    (sensors_to_watch : List String) : Bool :=
  sensors.any fun sensor =>
    decide (sensor.name ∈ sensors_to_watch) &&
      decide (now - sensor.lastupdated < 60 * 60)

/-- `room_control.redshift(bridge, now, lights, sun)`, as the mired
target sent to every controlled light (`coldest = 153`,
`hottest = 500` in the source). -/
def redshift (now : ℚ) (sun : SolarEvents) : ℤ :=
  if illumination now sun = 1 then 153
  else if illumination now sun = 0 then 500
  else pyInt (interpolate (illumination now sun) 500 153)

/-- The cloud-cover adjustment in `room_control.main`: when cloudy,
`sunset` and `dusk` move 30 minutes earlier; otherwise nothing. -/
def adjust_for_cloud (is_cloudy : Bool) (sun : SolarEvents) : SolarEvents :=
  if is_cloudy then
    { sun with sunset := sun.sunset - 30 * 60, dusk := sun.dusk - 30 * 60 }
  else sun

/-- `hue.py`, `get_transition_progress(now, sun)`. -/
def get_transition_progress (now : ℚ) (sun : SolarEvents) : ℚ :=
  if now < sun.dawn ∨ now > sun.dusk then 0
  else if now < sun.sunrise then
    (now - sun.dawn) / (sun.sunrise - sun.dawn)
  else if now > sun.sunset then
    (now - sun.sunset) / (sun.dusk - sun.sunset)
  else 1

/-- `thermometer.py`, `between(mini, maxi, color_start, color_end,
current)`. -/
def between (mini maxi color_start color_end current : ℚ) : ℤ :=
  pyInt (color_start + (color_start - color_end) * (mini - current) / |maxi - mini|)

/-- `thermometer.py`, `degree_c_to_hue_color(temp)`. -/
def degree_c_to_hue_color (temp : ℚ) : ℤ :=
  if temp < -10 then 46920
  else if temp < 0 then between (-10) 0 46920 25500 temp
  else if temp < 10 then between 0 10 25500 12750 temp
  else if temp < 30 then between 10 30 12750 0 temp
  else if temp < 40 then between 30 40 65280 56100 temp
  else 56100

/-- Claim C1: for dawn < sunrise ≤ sunset < dusk, `illumination` follows the
piecewise contract: 0 outside (dawn, dusk), the morning ramp
`(now - dawn) / (sunrise - dawn)` on [dawn, sunrise), the evening ramp
`1 - (now - sunset) / (dusk - sunset)` on (sunset, dusk], 1 on
[sunrise, sunset]; in particular it is 0 for every now ≤ dawn or ≥ dusk. -/
theorem illumination_piecewise (now : ℚ) (sun : SolarEvents)
    (h1 : sun.dawn < sun.sunrise) (h2 : sun.sunrise ≤ sun.sunset)
    (h3 : sun.sunset < sun.dusk) :
    ((now < sun.dawn ∨ now > sun.dusk) → illumination now sun = 0) ∧
    (sun.dawn ≤ now → now < sun.sunrise →
      illumination now sun = (now - sun.dawn) / (sun.sunrise - sun.dawn)) ∧
    (sun.sunset < now → now ≤ sun.dusk →
      illumination now sun = 1 - (now - sun.sunset) / (sun.dusk - sun.sunset)) ∧
    (sun.sunrise ≤ now → now ≤ sun.sunset → illumination now sun = 1) ∧
    (now ≤ sun.dawn → illumination now sun = 0) ∧
    (sun.dusk ≤ now → illumination now sun = 0) := by
  unfold illumination
  refine ⟨fun h => if_pos h, fun ha hb => ?_, fun ha hb => ?_, fun ha hb => ?_,
    fun h => ?_, fun h => ?_⟩
  · rw [if_neg (by push_neg; constructor <;> linarith), if_pos hb]
  · rw [if_neg (by push_neg; constructor <;> linarith),
      if_neg (by push_neg; linarith), if_pos ha]
  · rw [if_neg (by push_neg; constructor <;> linarith),
      if_neg (by push_neg; linarith), if_neg (by push_neg; linarith)]
  · rcases lt_or_eq_of_le h with h | h
    · rw [if_pos (Or.inl h)]
    · rw [if_neg (by push_neg; constructor <;> linarith),
        if_pos (by linarith), ← h]
      simp
  · rcases lt_or_eq_of_le h with h | h
    · rw [if_pos (Or.inr h)]
    · rw [if_neg (by push_neg; constructor <;> linarith),
        if_neg (by push_neg; linarith), if_pos (by linarith), ← h,
        div_self (sub_ne_zero.mpr h3.ne')]
      ring

/-- Witness for C1 at a concrete morning-twilight instant. -/
theorem illumination_piecewise_witness :
    illumination 50 ⟨0, 100, 400, 500⟩ = (50 - 0) / (100 - 0) :=
  (illumination_piecewise 50 ⟨0, 100, 400, 500⟩ (by norm_num) (by norm_num)
    (by norm_num)).2.1 (by norm_num) (by norm_num)

/-- Claim C2: under dawn ≤ sunrise ≤ sunset ≤ dusk, `illumination` never
divides by zero (the checked variant always returns `some`, agreeing with
`illumination`), even when dawn = sunrise or sunset = dusk; at a degenerate
boundary the value steps instantaneously to the adjacent boundary value
(1 on the day side, while outside (dawn, dusk) it is 0). -/
theorem illumination_no_div_by_zero (now : ℚ) (sun : SolarEvents)
    (h1 : sun.dawn ≤ sun.sunrise) (h2 : sun.sunrise ≤ sun.sunset)
    (h3 : sun.sunset ≤ sun.dusk) :
    illuminationChecked now sun = some (illumination now sun) ∧
    (sun.dawn = sun.sunrise → sun.dawn ≤ now → now ≤ sun.sunset →
      illumination now sun = 1) ∧
    (sun.sunset = sun.dusk → sun.sunrise ≤ now → now ≤ sun.dusk →
      illumination now sun = 1) := by
  refine ⟨?_, fun he ha hb => ?_, fun he ha hb => ?_⟩
  · unfold illuminationChecked illumination
    split_ifs with hout hmor hz1 heve hz2 <;> first
      | rfl
      | · push_neg at hout
          exfalso
          first
            | (rw [sub_eq_zero] at hz1; linarith)
            | (rw [sub_eq_zero] at hz2; linarith)
  · unfold illumination
    rw [if_neg (by push_neg; constructor <;> linarith),
      if_neg (by push_neg; linarith), if_neg (by push_neg; linarith)]
  · unfold illumination
    rw [if_neg (by push_neg; constructor <;> linarith),
      if_neg (by push_neg; linarith), if_neg (by push_neg; linarith)]

/-- Witness for C2 at a fully degenerate sun (dawn = sunrise,
sunset = dusk) and now at the morning boundary. -/
theorem illumination_no_div_by_zero_witness :
    illuminationChecked 100 ⟨100, 100, 400, 400⟩ =
      some (illumination 100 ⟨100, 100, 400, 400⟩) ∧
    illumination 100 ⟨100, 100, 400, 400⟩ = 1 :=
  ⟨(illumination_no_div_by_zero 100 ⟨100, 100, 400, 400⟩ (by norm_num)
      (by norm_num) (by norm_num)).1,
   (illumination_no_div_by_zero 100 ⟨100, 100, 400, 400⟩ (by norm_num)
      (by norm_num) (by norm_num)).2.1 rfl (by norm_num) (by norm_num)⟩

/-- Claim C10: under dawn < sunrise ≤ sunset < dusk, `hue.py`'s
`get_transition_progress` agrees with `illumination` whenever
now ≤ sunset or now > dusk, while on the evening window
sunset < now ≤ dusk the two sum to 1. -/
theorem transition_progress_vs_illumination (now : ℚ) (sun : SolarEvents)
    (h1 : sun.dawn < sun.sunrise) (h2 : sun.sunrise ≤ sun.sunset)
    (h3 : sun.sunset < sun.dusk) :
    ((now ≤ sun.sunset ∨ now > sun.dusk) →
      get_transition_progress now sun = illumination now sun) ∧
    (sun.sunset < now → now ≤ sun.dusk →
      get_transition_progress now sun + illumination now sun = 1) := by
  unfold get_transition_progress illumination
  constructor
  · rintro (h | h) <;>
      split_ifs with hout hmor heve <;>
        first
          | rfl
          | linarith
          | (exact absurd (Or.inr h) hout)
  · intro ha hb
    split_ifs with hout hmor
    · rcases hout with h | h <;> linarith
    · exact absurd hmor (by linarith)
    · ring

/-- Witness for C10 on the evening window: at a concrete instant between
sunset and dusk the two transition functions sum to 1. -/
theorem transition_progress_vs_illumination_witness :
    get_transition_progress 450 ⟨0, 100, 400, 500⟩ +
      illumination 450 ⟨0, 100, 400, 500⟩ = 1 :=
  (transition_progress_vs_illumination 450 ⟨0, 100, 400, 500⟩ (by norm_num)
    (by norm_num) (by norm_num)).2 (by norm_num) (by norm_num)

/-- Counterexample to C3 as stated: at full day (illumination = 1) a light
that is on at brightness 100 is only commanded to dim (brightness target 0)
and stays powered, so not every controlled light ends up with
powered = false. -/
theorem set_lights_day_not_all_off :
    ¬ ∀ l ∈ set_lights_brightness 250 [⟨true, 100⟩] ⟨0, 100, 400, 500⟩ false,
      l.isOn = false := by
  have h : set_lights_brightness 250 [⟨true, 100⟩] ⟨0, 100, 400, 500⟩ false
      = [⟨true, 0⟩] := by
    norm_num [set_lights_brightness, set_lights_brightness_action, illumination,
      poweroff_lights, poweroff_light]
  intro hall
  have := hall ⟨true, 0⟩ (by rw [h]; exact List.mem_singleton.mpr rfl)
  simp at this

/-- Claim C3 (amended): when illumination = 1 the policy runs the power-off
routine on every controlled light; a light already off is untouched, a lit
light at brightness ≤ 1 gets powered = false, and a lit light at higher
brightness gets a dim-to-zero command while staying powered. -/
theorem set_lights_day_poweroff (now : ℚ) (sun : SolarEvents) (b : Bool)
    (lights : List LightState) (h : illumination now sun = 1) :
    set_lights_brightness now lights sun b = poweroff_lights lights ∧
    ∀ s : LightState,
      (s.isOn = false → poweroff_light s = s) ∧
      (s.isOn = true → s.bri ≤ 1 → (poweroff_light s).isOn = false) ∧
      (s.isOn = true → 1 < s.bri → poweroff_light s = ⟨true, 0⟩) := by
  refine ⟨?_, fun s => ⟨fun hoff => ?_, fun hon hb => ?_, fun hon hb => ?_⟩⟩
  · simp [set_lights_brightness, set_lights_brightness_action, h]
  · simp [poweroff_light, hoff]
  · simp [poweroff_light, hon, hb]
  · cases s
    simp_all [poweroff_light]

/-- Witness for C3's amended theorem at a concrete full-day input. -/
theorem set_lights_day_poweroff_witness :
    set_lights_brightness 250 [⟨true, 100⟩] ⟨0, 100, 400, 500⟩ false
      = poweroff_lights [⟨true, 100⟩] :=
  (set_lights_day_poweroff 250 ⟨0, 100, 400, 500⟩ false [⟨true, 100⟩]
    (by norm_num [illumination])).1

/-- Claim C4: when illumination < 1 and the local hour is strictly between
0 and 7, the policy selects the power-off branch for every controlled light,
whatever the only-switchoff flag; hour 3 is inside that curfew window. -/
theorem set_lights_curfew (now : ℚ) (sun : SolarEvents) (b : Bool)
    (lights : List LightState) (h : illumination now sun < 1) :
    (0 < hourOfTime now ∧ hourOfTime now < 7 →
      set_lights_brightness_action now sun b = LightsAction.powerOff ∧
      set_lights_brightness now lights sun b = poweroff_lights lights) ∧
    (hourOfTime now = 3 →
      set_lights_brightness_action now sun b = LightsAction.powerOff ∧
      set_lights_brightness now lights sun b = poweroff_lights lights) := by
  have key : (0 < hourOfTime now ∧ hourOfTime now < 7) →
      set_lights_brightness_action now sun b = LightsAction.powerOff ∧
      set_lights_brightness now lights sun b = poweroff_lights lights := by
    intro hcur
    have ha : set_lights_brightness_action now sun b = LightsAction.powerOff := by
      unfold set_lights_brightness_action
      rw [if_neg (ne_of_lt h), if_pos hcur]
    refine ⟨ha, ?_⟩
    unfold set_lights_brightness
    rw [ha]
  exact ⟨key, fun h3 => key (by omega)⟩

/-- Witness for C4 at 03:00 UTC (hour 3) with zero illumination and the
only-switchoff flag set. -/
theorem set_lights_curfew_witness :
    set_lights_brightness 10800 [⟨false, 5⟩] ⟨0, 100, 400, 500⟩ true
      = poweroff_lights [⟨false, 5⟩] :=
  ((set_lights_curfew 10800 ⟨0, 100, 400, 500⟩ true [⟨false, 5⟩]
    (by norm_num [illumination])).2 (by norm_num [hourOfTime])).2

/-- Claim C5: the recency gate returns true iff some reading whose name is
watched satisfies now - lastPressed < 60 minutes (the per-room threshold),
and in particular returns false on an empty watch list. -/
theorem sensor_gate_iff (now : ℚ) (sensors : List SensorReading)
    (watch : List String) :
    (sensor_pressed_not_long_ago now sensors watch = true ↔
      ∃ s ∈ sensors, s.name ∈ watch ∧ now - s.lastupdated < 60 * 60) ∧
    (watch = [] → sensor_pressed_not_long_ago now sensors watch = false) := by
  constructor
  · simp [sensor_pressed_not_long_ago, List.any_eq_true]
  · intro hw
    subst hw
    simp [sensor_pressed_not_long_ago]

/-- Witness for C5: a watched sensor pressed 500 s ago fires the gate, and
the same reading with an empty watch list does not. -/
theorem sensor_gate_iff_witness :
    sensor_pressed_not_long_ago 1000 [⟨"salon", 500⟩] ["salon"] = true ∧
    sensor_pressed_not_long_ago 1000 [⟨"salon", 500⟩] [] = false :=
  ⟨(sensor_gate_iff 1000 [⟨"salon", 500⟩] ["salon"]).1.mpr
      ⟨⟨"salon", 500⟩, by simp, by simp, by norm_num⟩,
   (sensor_gate_iff 1000 [⟨"salon", 500⟩] []).2 rfl⟩

/-- Counterexample to C6 as stated: at full day the room controller's
redshift target is 153 mireds (`coldest = 153` in the source), not 154. -/
theorem redshift_day_is_153 :
    illumination 250 ⟨0, 100, 400, 500⟩ = 1 ∧
    redshift 250 ⟨0, 100, 400, 500⟩ = 153 ∧ ((153 : ℤ) ≠ 154) := by
  refine ⟨by norm_num [illumination], ?_, by norm_num⟩
  norm_num [redshift, illumination]

/-- Claim C6 (amended): the color-temperature decision maps
illumination = 1 to the coldest value 153 mireds, illumination = 0 to the
warmest value 500 mireds, and strictly intermediate illumination to the
integer truncation of the linear interpolation
(1 - illum) * 500 + illum * 153 (illum = 1 toward cold, 0 toward warm). -/
theorem redshift_targets (now : ℚ) (sun : SolarEvents) :
    (illumination now sun = 1 → redshift now sun = 153) ∧
    (illumination now sun = 0 → redshift now sun = 500) ∧
    (0 < illumination now sun → illumination now sun < 1 →
      redshift now sun =
        ⌊(1 - illumination now sun) * 500 + illumination now sun * 153⌋) := by
  refine ⟨fun h => ?_, fun h => ?_, fun h0 h1 => ?_⟩
  · simp [redshift, h]
  · norm_num [redshift, h]
  · unfold redshift
    rw [if_neg (ne_of_lt h1), if_neg (ne_of_gt h0)]
    unfold pyInt interpolate
    rw [if_neg (by push_neg; nlinarith)]

/-- Witness for C6's amended theorem at half illumination:
the target is the truncation of 326.5. -/
theorem redshift_targets_witness :
    redshift 50 ⟨0, 100, 400, 500⟩ = 326 := by
  have h := (redshift_targets 50 ⟨0, 100, 400, 500⟩).2.2
    (by norm_num [illumination]) (by norm_num [illumination])
  rw [h]
  norm_num [illumination]

/-- Counterexample to C7 as stated: at illumination 1/2 the power-on path
commands brightness int(127.5) = 127, while the claimed
round(interpolate(illum, 255, 0)) is 128. -/
theorem poweron_trunc_not_round :
    set_lights_brightness 50 [⟨true, 5⟩] ⟨0, 100, 400, 500⟩ false
      = [⟨true, 127⟩] ∧
    specRound (interpolate (illumination 50 ⟨0, 100, 400, 500⟩) 255 0) = 128 ∧
    ((127 : ℤ) ≠ 128) := by
  refine ⟨?_, ?_, by norm_num⟩
  · norm_num [set_lights_brightness, set_lights_brightness_action, illumination,
      hourOfTime, poweron_lights, poweron_light, interpolate, pyInt]
  · norm_num [specRound, illumination, interpolate]

/-- Claim C7 (amended): in the power-on path (illumination < 1, hour outside
the curfew window, only-switchoff unset) every controlled light is set to
powered = true with brightness target int(interpolate(illum, 255, 0)), the
truncation of (1 - illum) * 255; lower illumination gives a target nearer
255. -/
theorem poweron_path (now : ℚ) (sun : SolarEvents) (lights : List LightState)
    (h1 : illumination now sun < 1)
    (h2 : ¬(0 < hourOfTime now ∧ hourOfTime now < 7)) :
    set_lights_brightness now lights sun false
      = poweron_lights lights (illumination now sun) ∧
    (∀ s : LightState,
      (poweron_light (illumination now sun) s).isOn = true ∧
      (poweron_light (illumination now sun) s).bri
        = pyInt (interpolate (illumination now sun) 255 0)) ∧
    (∀ i1 i2 : ℚ, 0 ≤ i1 → i1 ≤ i2 → i2 ≤ 1 →
      pyInt (interpolate i2 255 0) ≤ pyInt (interpolate i1 255 0)) := by
  refine ⟨?_, fun s => ⟨rfl, rfl⟩, fun i1 i2 ha hb hc => ?_⟩
  · simp [set_lights_brightness, set_lights_brightness_action, ne_of_lt h1, h2]
  · unfold pyInt interpolate
    rw [if_neg (by push_neg; nlinarith), if_neg (by push_neg; nlinarith)]
    exact Int.floor_le_floor (by nlinarith)

/-- Witness for C7's amended theorem at half illumination, hour 0. -/
theorem poweron_path_witness :
    set_lights_brightness 50 [⟨false, 7⟩] ⟨0, 100, 400, 500⟩ false
      = poweron_lights [⟨false, 7⟩] (illumination 50 ⟨0, 100, 400, 500⟩) :=
  (poweron_path 50 ⟨0, 100, 400, 500⟩ [⟨false, 7⟩]
    (by norm_num [illumination]) (by norm_num [hourOfTime])).1

/-- Claim C8: the cloud-cover adjustment moves sunset and dusk 30 minutes
earlier and keeps dawn and sunrise, and does nothing when the sky is not
cloudy. -/
theorem adjust_for_cloud_spec (sun : SolarEvents) :
    (adjust_for_cloud true sun).dawn = sun.dawn ∧
    (adjust_for_cloud true sun).sunrise = sun.sunrise ∧
    (adjust_for_cloud true sun).sunset = sun.sunset - 30 * 60 ∧
    (adjust_for_cloud true sun).dusk = sun.dusk - 30 * 60 ∧
    adjust_for_cloud false sun = sun := by
  simp [adjust_for_cloud]

/-- Counterexample to C9 as stated: at the calibration boundary 30 the
segment below reaches 0 while the function (segment at 30) gives 65280, so
the two segment values do not coincide there. -/
theorem degree_color_jump_at_30 :
    between 10 30 12750 0 30 = 0 ∧
    degree_c_to_hue_color 30 = 65280 ∧ ((0 : ℤ) ≠ 65280) := by
  norm_num [degree_c_to_hue_color, between, pyInt]

/-- Claim C9 (amended): degreeToColor(-10) = 46920 and
degreeToColor(40) = 56100, and adjacent segments coincide at the
calibration boundaries -10, 0, 10 and 40; at the boundary 30 the segment
below ends at 0 while the segment at 30 starts at 65280 (the hue-wheel
wrap at red), a jump. -/
theorem degree_color_boundaries :
    degree_c_to_hue_color (-10) = 46920 ∧
    degree_c_to_hue_color 40 = 56100 ∧
    between (-10) 0 46920 25500 (-10) = 46920 ∧
    between (-10) 0 46920 25500 0 = 25500 ∧
    between 0 10 25500 12750 0 = 25500 ∧
    between 0 10 25500 12750 10 = 12750 ∧
    between 10 30 12750 0 10 = 12750 ∧
    between 30 40 65280 56100 40 = 56100 ∧
    between 10 30 12750 0 30 = 0 ∧
    between 30 40 65280 56100 30 = 65280 := by
  norm_num [degree_c_to_hue_color, between, pyInt]

end Huetils
